import Mathlib

/-!
Shallow embedding of the demofx user-record lookup service
(shared/config.go, shared/metrics.go, shared/database_inmemory.go,
shared/database_persistent.go, shared/user_service.go, shared/database_mock.go).

Modelling conventions:
- Go maps `map[string]string` / `map[string]bool` are association lists with
  `List.lookup`; insertion (`m[k] = v`) is `mapInsert`, which overwrites an
  existing key in place and otherwise appends, so `List.length` equals Go
  `len` (the number of distinct keys) as long as the list is built by
  `mapInsert` from a duplicate-free start.
- Go `error` values are `Except String` with the literal message strings the
  code produces; `nil` error is `Except.ok`.
- Logging (`Logger.Log`) and latency simulation (`time.Sleep`) are pure
  I/O with no effect on any data the claims mention; they are elided.
- Mutexes and atomics serialize access; the embedding is the sequential
  semantics of one call at a time, so locks are elided.
- The shared `*Metrics` pointer is modelled by threading a `MetricsState`
  value through each call; nil-ness of the pointer is a `hasMetrics : Bool`
  field on the holder.
- Timestamps (`time.Time`, rate limiting) are integers in milliseconds;
  `t.Add(100 * time.Millisecond).After(now)` is `now < t + 100`.
- Go `int` / `int64` are `Int`; no claim depends on overflow, so widths are
  not reduced modulo 2^w.
-/

namespace Demofx

/-- Association-list update with Go map semantics: overwrite the value of an
existing key, otherwise add the key.  Mirrors `m[k] = v` on a Go map. -/
def mapInsert (l : List (String × String)) (k v : String) : List (String × String) :=
  if (l.lookup k).isSome then
    l.map (fun p => if p.1 = k then (k, v) else p)
  else
    l ++ [(k, v)]

/-! ### Configuration (shared/config.go) -/

/-- ServerConfig from shared/config.go. -/
structure ServerConfig where
  Host : String
  Port : String
deriving DecidableEq

/-- DatabaseConfig from shared/config.go: `max_connections`,
`timeout_seconds`, `cache_size`. -/
structure DatabaseConfig where
  MaxConnections : Int
  Timeout : Int
  CacheSize : Int
deriving DecidableEq

/-- AppConfig from shared/config.go; `Features` is the feature-flag map. -/
structure AppConfig where
  Environment : String
  LogLevel : String
  Features : List (String × Bool)
deriving DecidableEq

/-- Config from shared/config.go. -/
structure Config where
  Server : ServerConfig
  Database : DatabaseConfig
  App : AppConfig
deriving DecidableEq

/-- Go map access `config.App.Features[name]` returns the zero value `false`
for a missing key. -/
def Config.feature (c : Config) (name : String) : Bool :=
  (c.App.Features.lookup name).getD false

/-! ### Metrics (shared/metrics.go) -/

/-- The state of the `Metrics` collector: the `enabled` flag fixed at
construction, the per-endpoint HTTP request counters, the four scalar
counters, and the per-endpoint duration lists.  Durations are integer
nanoseconds (Go `time.Duration`). -/
structure MetricsState where
  enabled : Bool
  httpRequests : List (String × Int)
  dbQueries : Int
  userLookups : Int
  cacheHits : Int
  cacheMisses : Int
  requestDuration : List (String × List Int)
deriving DecidableEq

/-- NewMetrics: empty maps, zero counters, `enabled` read from the
`metrics_enabled` feature flag. -/
def NewMetrics (config : Config) : MetricsState :=
  { enabled := config.feature "metrics_enabled"
    httpRequests := []
    dbQueries := 0
    userLookups := 0
    cacheHits := 0
    cacheMisses := 0
    requestDuration := [] }

/-- The endpoint-counter update inside RecordHTTPRequest: create the counter
at 0 when the endpoint is new, then add 1. -/
def incrEndpoint (l : List (String × Int)) (e : String) : List (String × Int) :=
  if (l.lookup e).isSome then
    l.map (fun p => if p.1 = e then (p.1, p.2 + 1) else p)
  else
    l ++ [(e, 1)]

/-- The duration-list update inside RecordHTTPRequest:
`append(m.requestDuration[endpoint], duration)` (a missing key appends to
the empty list). -/
def appendDuration (l : List (String × List Int)) (e : String) (d : Int) :
    List (String × List Int) :=
  if (l.lookup e).isSome then
    l.map (fun p => if p.1 = e then (p.1, p.2 ++ [d]) else p)
  else
    l ++ [(e, [d])]

/-- Metrics.RecordHTTPRequest: no-op unless enabled; bump the endpoint
counter and append the observed duration. -/
def MetricsState.RecordHTTPRequest (m : MetricsState) (endpoint : String) (duration : Int) :
    MetricsState :=
  if !m.enabled then m
  else
    { m with
      httpRequests := incrEndpoint m.httpRequests endpoint
      requestDuration := appendDuration m.requestDuration endpoint duration }

/-- Metrics.RecordDBQuery: no-op unless enabled; increment `dbQueries`. -/
def MetricsState.RecordDBQuery (m : MetricsState) : MetricsState :=
  if !m.enabled then m else { m with dbQueries := m.dbQueries + 1 }

/-- Metrics.RecordUserLookup: no-op unless enabled; increment `userLookups`. -/
def MetricsState.RecordUserLookup (m : MetricsState) : MetricsState :=
  if !m.enabled then m else { m with userLookups := m.userLookups + 1 }

/-- Metrics.RecordCacheHit: no-op unless enabled; increment `cacheHits`. -/
def MetricsState.RecordCacheHit (m : MetricsState) : MetricsState :=
  if !m.enabled then m else { m with cacheHits := m.cacheHits + 1 }

/-- Metrics.RecordCacheMiss: no-op unless enabled; increment `cacheMisses`. -/
def MetricsState.RecordCacheMiss (m : MetricsState) : MetricsState :=
  if !m.enabled then m else { m with cacheMisses := m.cacheMisses + 1 }

/-- The per-endpoint average in GetStats: total divided by count (integer
division of `time.Duration`; durations here are non-negative so all integer
division conventions agree). -/
def avgDuration (durations : List Int) : Int :=
  if durations.length > 0 then durations.foldl (· + ·) 0 / (durations.length : Int) else 0

/-- The cache hit rate of GetStats in tenths of a percent:
`hits/(hits+misses)*100`, 0 when no samples.  The Go code computes a
`float64` and prints it with `%.1f`; the embedding keeps one decimal digit
by integer arithmetic (the float rounding at the last digit is not observed
by any claim). -/
def hitRateTenths (hits misses : Int) : Int :=
  if hits + misses > 0 then hits * 1000 / (hits + misses) else 0

/-- Rendering of the hit rate with one decimal digit, as `%.1f` does for the
values reachable here (non-negative, at most 100.0). -/
def renderTenths (t : Int) : String :=
  toString (t / 10) ++ "." ++ toString (t % 10)

/-- The per-endpoint lines of the HTTP section of GetStats.  Go iterates the
`httpRequests` map in unspecified order; the embedding iterates in insertion
order (the spec itself flags the order as unspecified). -/
def httpLines (reqs : List (String × Int)) (durs : List (String × List Int)) : String :=
  reqs.foldl
    (fun acc p =>
      acc ++ "  " ++ p.1 ++ ": " ++ toString p.2 ++ " requests (avg: "
        ++ toString (avgDuration ((durs.lookup p.1).getD [])) ++ ")\n")
    ""

/-- Metrics.GetStats: the fixed disabled string when the collector is
disabled, otherwise the structured report assembled from the counters. -/
def MetricsState.GetStats (m : MetricsState) : String :=
  if !m.enabled then "Metrics disabled"
  else
    "=== Application Metrics ===\n\n"
      ++ "HTTP Requests:\n"
      ++ httpLines m.httpRequests m.requestDuration
      ++ "\nDatabase:\n  Queries: " ++ toString m.dbQueries ++ "\n"
      ++ "\nCache:\n  Hits: " ++ toString m.cacheHits
      ++ "\n  Misses: " ++ toString m.cacheMisses
      ++ "\n  Hit Rate: " ++ renderTenths (hitRateTenths m.cacheHits m.cacheMisses) ++ "%\n"
      ++ "\nBusiness:\n  User Lookups: " ++ toString m.userLookups ++ "\n"

/-! ### In-memory backend (shared/database_inmemory.go) -/

/-- The data fields of `InMemoryDatabase`: config, whether the metrics
pointer is non-nil, the backing `users` map, the `cache` map, and the
`cacheEnabled` flag. -/
structure InMemoryDatabase where
  config : DatabaseConfig
  hasMetrics : Bool
  users : List (String × String)
  cache : List (String × String)
  cacheEnabled : Bool
deriving DecidableEq

/-- NewInMemoryDatabase: seeds the three fixed records, empty cache,
`cacheEnabled` from the `cache_enabled` feature flag.  `hasMetrics` records
whether the `metrics` argument is nil. -/
def NewInMemoryDatabase (config : Config) (hasMetrics : Bool) : InMemoryDatabase :=
  { config := config.Database
    hasMetrics := hasMetrics
    cacheEnabled := config.feature "cache_enabled"
    users := [("1", "Alice"), ("2", "Bob"), ("3", "Charlie")]
    cache := [] }

/-- InMemoryDatabase.Initialize: logs and sleeps only; always returns nil
and changes no data. -/
def InMemoryDatabase.Initialize (d : InMemoryDatabase) :
    Except String Unit × InMemoryDatabase :=
  (Except.ok (), d)

/-- InMemoryDatabase.Close: logs only; always returns nil. -/
def InMemoryDatabase.Close (d : InMemoryDatabase) :
    Except String Unit × InMemoryDatabase :=
  (Except.ok (), d)

/-- The tail of InMemoryDatabase.GetUser after the cache block (lines
77-90): fetch from the `users` map; on success cache the value when caching
is enabled and the occupancy is strictly below `CacheSize`; on a missing id
return the error `user not found`. -/
def InMemoryDatabase.fetchFromStore (d : InMemoryDatabase) (m : MetricsState) (id : String) :
    Except String String × InMemoryDatabase × MetricsState :=
  match d.users.lookup id with
  | some name =>
      if d.cacheEnabled ∧ (d.cache.length : Int) < d.config.CacheSize then
        (Except.ok name, { d with cache := mapInsert d.cache id name }, m)
      else
        (Except.ok name, d, m)
  | none => (Except.error "user not found", d, m)

/-- InMemoryDatabase.GetUser: record a DB query (when metrics is non-nil),
then, when caching is enabled, return a cache hit immediately or record a
miss and fall through to the store fetch. -/
def InMemoryDatabase.GetUser (d : InMemoryDatabase) (m : MetricsState) (id : String) :
    Except String String × InMemoryDatabase × MetricsState :=
  let m1 := if d.hasMetrics then m.RecordDBQuery else m
  if d.cacheEnabled then
    match d.cache.lookup id with
    | some cached =>
        (Except.ok cached, d, if d.hasMetrics then m1.RecordCacheHit else m1)
    | none =>
        d.fetchFromStore (if d.hasMetrics then m1.RecordCacheMiss else m1) id
  else
    d.fetchFromStore m1 id

/-! ### Persistent backend (shared/database_persistent.go) -/

/-- The content of the single well-known data file
(`os.TempDir()/demo_users.json`).  `json m` stands for the
`json.MarshalIndent` bytes of the record map `m` (encoding/json round-trips
`map[string]string` and is injective on it, so the decoded map determines
the bytes up to key order, which Go sorts); `corrupt` is any byte content
that `json.Unmarshal` rejects; `absent` makes `os.ReadFile` fail. -/
inductive FileContent
  | absent
  | corrupt
  | json (records : List (String × String))
deriving DecidableEq

/-- The data fields of `PersistentDatabase`: config, whether the metrics
pointer is non-nil, the backing `users` map, the `cache` map, and the
`cacheEnabled` flag.  The `dataFile` path is fixed, so the file itself is
the single `FileContent` value threaded through the file operations. -/
structure PersistentDatabase where
  config : DatabaseConfig
  hasMetrics : Bool
  users : List (String × String)
  cache : List (String × String)
  cacheEnabled : Bool
deriving DecidableEq

/-- NewPersistentDatabase: empty `users` and `cache` maps, `cacheEnabled`
from the `cache_enabled` feature flag. -/
def NewPersistentDatabase (config : Config) (hasMetrics : Bool) : PersistentDatabase :=
  { config := config.Database
    hasMetrics := hasMetrics
    cacheEnabled := config.feature "cache_enabled"
    users := []
    cache := [] }

/-- PersistentDatabase.loadData: `os.ReadFile` fails on an absent file;
`json.Unmarshal` fails on corrupt bytes without touching `d.users` (it
validates the whole input before storing anything); on success the decoded
map is stored into `d.users` (which every call site has freshly constructed
empty, so unmarshalling into it yields exactly the decoded map). -/
def PersistentDatabase.loadData (d : PersistentDatabase) (fs : FileContent) :
    Except Unit PersistentDatabase :=
  match fs with
  | FileContent.absent => Except.error ()
  | FileContent.corrupt => Except.error ()
  | FileContent.json m => Except.ok { d with users := m }

/-- PersistentDatabase.saveData: marshal the full `users` map and write it
wholesale to the data file.  Writing to the temp-dir file is modelled as
always succeeding. -/
def PersistentDatabase.saveData (d : PersistentDatabase) : FileContent :=
  FileContent.json d.users

/-- The initial dataset seeded by PersistentDatabase.Initialize when
loading fails. -/
def initialDataset : List (String × String) :=
  [("1", "Alice"), ("2", "Bob"), ("3", "Charlie"),
   ("4", "Diana"), ("5", "Edward"), ("6", "Fiona")]

/-- PersistentDatabase.Initialize: try `loadData`; on ANY load error
(absent file or corrupt JSON alike) seed `initialDataset` and save it,
then return nil.  The only error return is a failing save of the initial
data, which the always-succeeding write model never reaches. -/
def PersistentDatabase.Initialize (d : PersistentDatabase) (fs : FileContent) :
    Except String Unit × PersistentDatabase × FileContent :=
  match d.loadData fs with
  | Except.ok d1 => (Except.ok (), d1, fs)
  | Except.error _ =>
      let d1 := { d with users := initialDataset }
      (Except.ok (), d1, d1.saveData)

/-- PersistentDatabase.Close: save the full current record map back to the
file; report a save failure (never reached under the write model). -/
def PersistentDatabase.Close (d : PersistentDatabase) (_fs : FileContent) :
    Except String Unit × PersistentDatabase × FileContent :=
  (Except.ok (), d, d.saveData)

/-- The tail of PersistentDatabase.GetUser after the cache block (lines
130-147): fetch from the `users` map under the reader lock; on success
cache the value when caching is enabled and the occupancy is strictly below
`CacheSize`; on a missing id return the error `user not found`. -/
def PersistentDatabase.fetchFromStore (d : PersistentDatabase) (m : MetricsState) (id : String) :
    Except String String × PersistentDatabase × MetricsState :=
  match d.users.lookup id with
  | some name =>
      if d.cacheEnabled ∧ (d.cache.length : Int) < d.config.CacheSize then
        (Except.ok name, { d with cache := mapInsert d.cache id name }, m)
      else
        (Except.ok name, d, m)
  | none => (Except.error "user not found", d, m)

/-- PersistentDatabase.GetUser: record a DB query (when metrics is
non-nil), then, when caching is enabled, return a cache hit immediately or
record a miss and fall through to the store fetch. -/
def PersistentDatabase.GetUser (d : PersistentDatabase) (m : MetricsState) (id : String) :
    Except String String × PersistentDatabase × MetricsState :=
  let m1 := if d.hasMetrics then m.RecordDBQuery else m
  if d.cacheEnabled then
    match d.cache.lookup id with
    | some cached =>
        (Except.ok cached, d, if d.hasMetrics then m1.RecordCacheHit else m1)
    | none =>
        d.fetchFromStore (if d.hasMetrics then m1.RecordCacheMiss else m1) id
  else
    d.fetchFromStore m1 id

/-! ### Mock database (shared/database_mock.go) -/

/-- MockDatabase, the test double for the Database interface. -/
structure MockDatabase where
  Users : List (String × String)
  ShouldError : Bool
  ErrorMessage : String
  InitializeCalls : Int
  CloseCalls : Int
  GetUserCalls : Int
  LastRequestedID : String
deriving DecidableEq

/-- NewMockDatabase: three fixed test records, all counters zero. -/
def NewMockDatabase : MockDatabase :=
  { Users := [("test1", "Test User 1"), ("test2", "Test User 2"), ("mock", "Mock User")]
    ShouldError := false
    ErrorMessage := ""
    InitializeCalls := 0
    CloseCalls := 0
    GetUserCalls := 0
    LastRequestedID := "" }

/-- MockDatabase.GetUser: count the call, remember the id, then answer from
the `Users` map or fail. -/
def MockDatabase.GetUser (mdb : MockDatabase) (id : String) :
    Except String String × MockDatabase :=
  let mdb1 := { mdb with GetUserCalls := mdb.GetUserCalls + 1, LastRequestedID := id }
  if mdb1.ShouldError then
    (Except.error ("mock error: " ++ mdb1.ErrorMessage), mdb1)
  else
    match mdb1.Users.lookup id with
    | some user => (Except.ok user, mdb1)
    | none => (Except.error "user not found", mdb1)

/-! ### User lookup service (shared/user_service.go, v2: with metrics and
the Database interface) -/

/-- The state of `UserService`: the `rateLimiting` flag, the
service-instance-local `lastRequest` timestamp (milliseconds), and whether
the metrics pointer is non-nil. -/
structure UserService where
  rateLimiting : Bool
  lastRequest : Int
  hasMetrics : Bool
deriving DecidableEq

/-- NewUserService: `rateLimiting` from the `rate_limiting` feature flag;
`lastRequest` starts at the zero time. -/
def NewUserService (config : Config) (hasMetrics : Bool) : UserService :=
  { rateLimiting := config.feature "rate_limiting"
    lastRequest := 0
    hasMetrics := hasMetrics }

/-- The four HTTP outcomes of GetUserHandler: 429 Too Many Requests, 400
Missing user ID, 404 User not found, and 200 with the rendered body. -/
inductive HandlerResult
  | tooManyRequests
  | badRequest
  | notFound
  | ok (body : String)
deriving DecidableEq

/-- UserService.GetUserHandler, polymorphic over the Database
implementation behind the interface (its state `σ` and its `GetUser`
method).  `now` is the current time; `userID` is `c.QueryParam("id")`,
which is the empty string when the parameter is missing.  Rate limiting, if
enabled, rejects when `lastRequest + 100ms` is strictly after `now` and
otherwise updates `lastRequest`; then the id is validated; then a user
lookup is recorded (when metrics is non-nil) and the database is
consulted. -/
def UserService.GetUserHandler {σ : Type} (getUser : σ → String → Except String String × σ)
    (s : UserService) (m : MetricsState) (db : σ) (now : Int) (userID : String) :
    HandlerResult × UserService × MetricsState × σ :=
  if s.rateLimiting ∧ now < s.lastRequest + 100 then
    (HandlerResult.tooManyRequests, s, m, db)
  else
    let s1 := if s.rateLimiting then { s with lastRequest := now } else s
    if userID = "" then
      (HandlerResult.badRequest, s1, m, db)
    else
      let m1 := if s1.hasMetrics then m.RecordUserLookup else m
      match getUser db userID with
      | (Except.ok user, db1) => (HandlerResult.ok ("User: " ++ user ++ "\n"), s1, m1, db1)
      | (Except.error _, db1) => (HandlerResult.notFound, s1, m1, db1)

/-! ### Helper lemmas -/

/-- Inserting into a Go-map association list adds at most one entry. -/
theorem mapInsert_length_le (l : List (String × String)) (k v : String) :
    (mapInsert l k v).length ≤ l.length + 1 := by
  unfold mapInsert
  split <;> simp

/-- The in-memory store fetch changes neither the `users` map, nor the
config, nor the flags, nor the metrics. -/
theorem InMemoryDatabase.fetchFromStore_frame (d : InMemoryDatabase) (m : MetricsState)
    (id : String) :
    (d.fetchFromStore m id).2.1.users = d.users
    ∧ (d.fetchFromStore m id).2.1.config = d.config
    ∧ (d.fetchFromStore m id).2.1.cacheEnabled = d.cacheEnabled
    ∧ (d.fetchFromStore m id).2.1.hasMetrics = d.hasMetrics
    ∧ (d.fetchFromStore m id).2.2 = m := by
  unfold InMemoryDatabase.fetchFromStore
  split
  · split <;> simp
  · simp

/-- The in-memory store fetch either leaves the cache untouched, or the
occupancy was strictly below capacity and it grew by at most one entry. -/
theorem InMemoryDatabase.fetchFromStore_cache (d : InMemoryDatabase) (m : MetricsState)
    (id : String) :
    (d.fetchFromStore m id).2.1.cache = d.cache
    ∨ ((d.cache.length : Int) < d.config.CacheSize
        ∧ (d.fetchFromStore m id).2.1.cache.length ≤ d.cache.length + 1) := by
  unfold InMemoryDatabase.fetchFromStore
  split
  · split
    · next h =>
        right
        exact ⟨h.2, by simpa using mapInsert_length_le d.cache id _⟩
    · left; rfl
  · left; rfl

/-- The in-memory store fetch answers from the `users` map: the seeded name
on a present id, the `user not found` error otherwise. -/
theorem InMemoryDatabase.fetchFromStore_shape (d : InMemoryDatabase) (m : MetricsState)
    (id : String) :
    (∃ n, d.users.lookup id = some n ∧ (d.fetchFromStore m id).1 = Except.ok n)
    ∨ (d.users.lookup id = none ∧ (d.fetchFromStore m id).1 = Except.error "user not found") := by
  unfold InMemoryDatabase.fetchFromStore
  split
  · next name h =>
      left
      refine ⟨name, h, ?_⟩
      split <;> rfl
  · next h => right; exact ⟨h, rfl⟩

/-- The persistent store fetch changes neither the `users` map, nor the
config, nor the flags, nor the metrics. -/
theorem PersistentDatabase.fetchFromStore_frame_pers (d : PersistentDatabase) (m : MetricsState)
    (id : String) :
    (d.fetchFromStore m id).2.1.users = d.users
    ∧ (d.fetchFromStore m id).2.1.config = d.config
    ∧ (d.fetchFromStore m id).2.1.cacheEnabled = d.cacheEnabled
    ∧ (d.fetchFromStore m id).2.1.hasMetrics = d.hasMetrics
    ∧ (d.fetchFromStore m id).2.2 = m := by
  unfold PersistentDatabase.fetchFromStore
  split
  · split <;> simp
  · simp

/-- The persistent store fetch either leaves the cache untouched, or the
occupancy was strictly below capacity and it grew by at most one entry. -/
theorem PersistentDatabase.fetchFromStore_cache_pers (d : PersistentDatabase) (m : MetricsState)
    (id : String) :
    (d.fetchFromStore m id).2.1.cache = d.cache
    ∨ ((d.cache.length : Int) < d.config.CacheSize
        ∧ (d.fetchFromStore m id).2.1.cache.length ≤ d.cache.length + 1) := by
  unfold PersistentDatabase.fetchFromStore
  split
  · split
    · next h =>
        right
        exact ⟨h.2, by simpa using mapInsert_length_le d.cache id _⟩
    · left; rfl
  · left; rfl

/-- The persistent store fetch answers from the `users` map: the stored
name on a present id, the `user not found` error otherwise. -/
theorem PersistentDatabase.fetchFromStore_shape_pers (d : PersistentDatabase) (m : MetricsState)
    (id : String) :
    (∃ n, d.users.lookup id = some n ∧ (d.fetchFromStore m id).1 = Except.ok n)
    ∨ (d.users.lookup id = none ∧ (d.fetchFromStore m id).1 = Except.error "user not found") := by
  unfold PersistentDatabase.fetchFromStore
  split
  · next name h =>
      left
      refine ⟨name, h, ?_⟩
      split <;> rfl
  · next h => right; exact ⟨h, rfl⟩

/-- InMemoryDatabase.GetUser changes neither the `users` map, nor the
config, nor the flags. -/
theorem InMemoryDatabase.getUser_frame (d : InMemoryDatabase) (m : MetricsState) (id : String) :
    (d.GetUser m id).2.1.users = d.users
    ∧ (d.GetUser m id).2.1.config = d.config
    ∧ (d.GetUser m id).2.1.cacheEnabled = d.cacheEnabled
    ∧ (d.GetUser m id).2.1.hasMetrics = d.hasMetrics := by
  simp only [InMemoryDatabase.GetUser]
  split
  · split
    · simp
    · have h := InMemoryDatabase.fetchFromStore_frame d
        (if d.hasMetrics then (if d.hasMetrics then m.RecordDBQuery else m).RecordCacheMiss
         else (if d.hasMetrics then m.RecordDBQuery else m)) id
      exact ⟨h.1, h.2.1, h.2.2.1, h.2.2.2.1⟩
  · have h := InMemoryDatabase.fetchFromStore_frame d
      (if d.hasMetrics then m.RecordDBQuery else m) id
    exact ⟨h.1, h.2.1, h.2.2.1, h.2.2.2.1⟩

/-- InMemoryDatabase.GetUser either leaves the cache untouched, or the
occupancy was strictly below capacity and the cache grew by at most one
entry. -/
theorem InMemoryDatabase.getUser_cache (d : InMemoryDatabase) (m : MetricsState) (id : String) :
    (d.GetUser m id).2.1.cache = d.cache
    ∨ ((d.cache.length : Int) < d.config.CacheSize
        ∧ (d.GetUser m id).2.1.cache.length ≤ d.cache.length + 1) := by
  simp only [InMemoryDatabase.GetUser]
  split
  · split
    · simp
    · exact InMemoryDatabase.fetchFromStore_cache d _ id
  · exact InMemoryDatabase.fetchFromStore_cache d _ id

/-- InMemoryDatabase.GetUser returns some name, or exactly the
`user not found` error. -/
theorem InMemoryDatabase.getUser_shape (d : InMemoryDatabase) (m : MetricsState) (id : String) :
    (∃ n, (d.GetUser m id).1 = Except.ok n)
    ∨ (d.GetUser m id).1 = Except.error "user not found" := by
  simp only [InMemoryDatabase.GetUser]
  split
  · split
    · next cached _ => exact Or.inl ⟨cached, rfl⟩
    · rcases InMemoryDatabase.fetchFromStore_shape d _ id with ⟨n, _, h⟩ | ⟨_, h⟩
      · exact Or.inl ⟨n, h⟩
      · exact Or.inr h
  · rcases InMemoryDatabase.fetchFromStore_shape d _ id with ⟨n, _, h⟩ | ⟨_, h⟩
    · exact Or.inl ⟨n, h⟩
    · exact Or.inr h

/-- With an empty cache, InMemoryDatabase.GetUser answers from the `users`
map. -/
theorem InMemoryDatabase.getUser_empty_cache (d : InMemoryDatabase) (m : MetricsState)
    (id : String) (hc : d.cache = []) :
    (∃ n, d.users.lookup id = some n ∧ (d.GetUser m id).1 = Except.ok n)
    ∨ (d.users.lookup id = none ∧ (d.GetUser m id).1 = Except.error "user not found") := by
  simp only [InMemoryDatabase.GetUser]
  split
  · split
    · next cached hl => rw [hc] at hl; simp at hl
    · exact InMemoryDatabase.fetchFromStore_shape d _ id
  · exact InMemoryDatabase.fetchFromStore_shape d _ id

/-- PersistentDatabase.GetUser changes neither the `users` map, nor the
config, nor the flags. -/
theorem PersistentDatabase.getUser_frame_pers (d : PersistentDatabase) (m : MetricsState)
    (id : String) :
    (d.GetUser m id).2.1.users = d.users
    ∧ (d.GetUser m id).2.1.config = d.config
    ∧ (d.GetUser m id).2.1.cacheEnabled = d.cacheEnabled
    ∧ (d.GetUser m id).2.1.hasMetrics = d.hasMetrics := by
  simp only [PersistentDatabase.GetUser]
  split
  · split
    · simp
    · have h := PersistentDatabase.fetchFromStore_frame_pers d
        (if d.hasMetrics then (if d.hasMetrics then m.RecordDBQuery else m).RecordCacheMiss
         else (if d.hasMetrics then m.RecordDBQuery else m)) id
      exact ⟨h.1, h.2.1, h.2.2.1, h.2.2.2.1⟩
  · have h := PersistentDatabase.fetchFromStore_frame_pers d
      (if d.hasMetrics then m.RecordDBQuery else m) id
    exact ⟨h.1, h.2.1, h.2.2.1, h.2.2.2.1⟩

/-- PersistentDatabase.GetUser either leaves the cache untouched, or the
occupancy was strictly below capacity and the cache grew by at most one
entry. -/
theorem PersistentDatabase.getUser_cache_pers (d : PersistentDatabase) (m : MetricsState)
    (id : String) :
    (d.GetUser m id).2.1.cache = d.cache
    ∨ ((d.cache.length : Int) < d.config.CacheSize
        ∧ (d.GetUser m id).2.1.cache.length ≤ d.cache.length + 1) := by
  simp only [PersistentDatabase.GetUser]
  split
  · split
    · simp
    · exact PersistentDatabase.fetchFromStore_cache_pers d _ id
  · exact PersistentDatabase.fetchFromStore_cache_pers d _ id

/-- PersistentDatabase.GetUser returns some name, or exactly the
`user not found` error. -/
theorem PersistentDatabase.getUser_shape_pers (d : PersistentDatabase) (m : MetricsState)
    (id : String) :
    (∃ n, (d.GetUser m id).1 = Except.ok n)
    ∨ (d.GetUser m id).1 = Except.error "user not found" := by
  simp only [PersistentDatabase.GetUser]
  split
  · split
    · next cached _ => exact Or.inl ⟨cached, rfl⟩
    · rcases PersistentDatabase.fetchFromStore_shape_pers d _ id with ⟨n, _, h⟩ | ⟨_, h⟩
      · exact Or.inl ⟨n, h⟩
      · exact Or.inr h
  · rcases PersistentDatabase.fetchFromStore_shape_pers d _ id with ⟨n, _, h⟩ | ⟨_, h⟩
    · exact Or.inl ⟨n, h⟩
    · exact Or.inr h

/-- With an empty cache, PersistentDatabase.GetUser answers from the
`users` map. -/
theorem PersistentDatabase.getUser_empty_cache_pers (d : PersistentDatabase) (m : MetricsState)
    (id : String) (hc : d.cache = []) :
    (∃ n, d.users.lookup id = some n ∧ (d.GetUser m id).1 = Except.ok n)
    ∨ (d.users.lookup id = none ∧ (d.GetUser m id).1 = Except.error "user not found") := by
  simp only [PersistentDatabase.GetUser]
  split
  · split
    · next cached hl => rw [hc] at hl; simp at hl
    · exact PersistentDatabase.fetchFromStore_shape_pers d _ id
  · exact PersistentDatabase.fetchFromStore_shape_pers d _ id

/-- With rate limiting enabled, the handler rejects exactly when `now` is
strictly before `lastRequest + 100ms`. -/
theorem UserService.handler_reject_iff {σ : Type} (getUser : σ → String → Except String String × σ)
    (s : UserService) (m : MetricsState) (db : σ) (now : Int) (uid : String)
    (h : s.rateLimiting = true) :
    ((UserService.GetUserHandler getUser s m db now uid).1 = HandlerResult.tooManyRequests)
      ↔ now < s.lastRequest + 100 := by
  simp only [UserService.GetUserHandler]
  split
  · next hcond => simp [hcond.2]
  · next hcond =>
      have hn : ¬ now < s.lastRequest + 100 := fun hlt => hcond ⟨by simp [h], hlt⟩
      simp only [hn, iff_false]
      split
      · simp
      · rcases hgu : getUser db uid with ⟨r, db1⟩
        rcases r <;> simp [hgu]

/-- With rate limiting enabled, a rejected request changes nothing: the
service state (in particular `lastRequest`), the metrics, and the database
are returned untouched. -/
theorem UserService.handler_reject_frame {σ : Type}
    (getUser : σ → String → Except String String × σ)
    (s : UserService) (m : MetricsState) (db : σ) (now : Int) (uid : String)
    (h : s.rateLimiting = true) (hlt : now < s.lastRequest + 100) :
    UserService.GetUserHandler getUser s m db now uid
      = (HandlerResult.tooManyRequests, s, m, db) := by
  simp only [UserService.GetUserHandler]
  split
  · rfl
  · next hcond => exact absurd ⟨by simp [h], hlt⟩ hcond

/-- With rate limiting enabled, an accepted request sets `lastRequest` to
the current time (and changes no other service field). -/
theorem UserService.handler_accept_state {σ : Type}
    (getUser : σ → String → Except String String × σ)
    (s : UserService) (m : MetricsState) (db : σ) (now : Int) (uid : String)
    (h : s.rateLimiting = true) (hge : ¬ now < s.lastRequest + 100) :
    (UserService.GetUserHandler getUser s m db now uid).2.1
      = { s with lastRequest := now } := by
  simp only [UserService.GetUserHandler]
  rw [if_neg (fun hc => hge hc.2)]
  simp only [h, if_true]
  split
  · rfl
  · rcases hgu : getUser db uid with ⟨r, db1⟩
    rcases r <;> simp [hgu]

/-- Claim C6: with rate limiting enabled, a lookup is rejected with the
rate-limit condition iff the elapsed time since the last accepted request
is strictly below 100ms; a rejected request leaves the service state,
metrics and database untouched (in particular the last-accepted timestamp);
an accepted request stamps `lastRequest := now`; hence of two lookups
issued less than 100ms apart (the first accepted) the second is rejected,
and of two issued at least 100ms apart both pass the rate-limit gate. -/
theorem c6_rate_limit_window {σ : Type} (getUser : σ → String → Except String String × σ)
    (s : UserService) (m : MetricsState) (db : σ) (now : Int) (uid : String)
    (h : s.rateLimiting = true) :
    (((UserService.GetUserHandler getUser s m db now uid).1 = HandlerResult.tooManyRequests)
       ↔ now - s.lastRequest < 100)
    ∧ (now - s.lastRequest < 100 →
        UserService.GetUserHandler getUser s m db now uid
          = (HandlerResult.tooManyRequests, s, m, db))
    ∧ (¬ now - s.lastRequest < 100 →
        (UserService.GetUserHandler getUser s m db now uid).2.1
          = { s with lastRequest := now })
    ∧ (∀ (t2 : Int) (uid2 : String) (m2 : MetricsState) (db2 : σ),
        ¬ now - s.lastRequest < 100 → t2 - now < 100 →
        (UserService.GetUserHandler getUser
            ((UserService.GetUserHandler getUser s m db now uid).2.1) m2 db2 t2 uid2).1
          = HandlerResult.tooManyRequests)
    ∧ (∀ (t2 : Int) (uid2 : String) (m2 : MetricsState) (db2 : σ),
        ¬ now - s.lastRequest < 100 → ¬ t2 - now < 100 →
        (UserService.GetUserHandler getUser
            ((UserService.GetUserHandler getUser s m db now uid).2.1) m2 db2 t2 uid2).1
          ≠ HandlerResult.tooManyRequests) := by
  refine ⟨?_, ?_, ?_, ?_, ?_⟩
  · exact (UserService.handler_reject_iff getUser s m db now uid h).trans (by omega)
  · intro hlt
    exact UserService.handler_reject_frame getUser s m db now uid h (by omega)
  · intro hge
    exact UserService.handler_accept_state getUser s m db now uid h (by omega)
  · intro t2 uid2 m2 db2 hge hlt
    rw [UserService.handler_accept_state getUser s m db now uid h (by omega)]
    refine (UserService.handler_reject_iff getUser
      { s with lastRequest := now } m2 db2 t2 uid2 h).mpr ?_
    show t2 < now + 100
    omega
  · intro t2 uid2 m2 db2 hge1 hge2
    rw [UserService.handler_accept_state getUser s m db now uid h (by omega)]
    intro hres
    have h2 : t2 < now + 100 :=
      (UserService.handler_reject_iff getUser
        { s with lastRequest := now } m2 db2 t2 uid2 h).mp hres
    omega

/-- Witness for C6 at a concrete input: two requests 50ms apart, the first
at time 1000 against a last-accepted time of 0, the second rejected. -/
theorem c6_rate_limit_window_witness :
    (UserService.GetUserHandler MockDatabase.GetUser
        ((UserService.GetUserHandler MockDatabase.GetUser
            { rateLimiting := true, lastRequest := 0, hasMetrics := false }
            (NewMetrics { Server := { Host := "localhost", Port := "8080" },
                          Database := { MaxConnections := 10, Timeout := 30, CacheSize := 100 },
                          App := { Environment := "test", LogLevel := "debug",
                                   Features := [("cache_enabled", false),
                                                ("rate_limiting", true),
                                                ("metrics_enabled", false)] } })
            NewMockDatabase 1000 "test1").2.1)
        (NewMetrics { Server := { Host := "localhost", Port := "8080" },
                      Database := { MaxConnections := 10, Timeout := 30, CacheSize := 100 },
                      App := { Environment := "test", LogLevel := "debug",
                               Features := [("cache_enabled", false),
                                            ("rate_limiting", true),
                                            ("metrics_enabled", false)] } })
        NewMockDatabase 1050 "test1").1
      = HandlerResult.tooManyRequests :=
  (c6_rate_limit_window MockDatabase.GetUser
      { rateLimiting := true, lastRequest := 0, hasMetrics := false }
      (NewMetrics { Server := { Host := "localhost", Port := "8080" },
                    Database := { MaxConnections := 10, Timeout := 30, CacheSize := 100 },
                    App := { Environment := "test", LogLevel := "debug",
                             Features := [("cache_enabled", false),
                                          ("rate_limiting", true),
                                          ("metrics_enabled", false)] } })
      NewMockDatabase 1000 "test1" rfl).2.2.2.1
    1050 "test1"
    (NewMetrics { Server := { Host := "localhost", Port := "8080" },
                  Database := { MaxConnections := 10, Timeout := 30, CacheSize := 100 },
                  App := { Environment := "test", LogLevel := "debug",
                           Features := [("cache_enabled", false),
                                        ("rate_limiting", true),
                                        ("metrics_enabled", false)] } })
    NewMockDatabase (by decide) (by decide)

/-- Claim C8: a request with an empty (missing) id that passes the
rate-limit gate is rejected with the bad-input response; the database is
not consulted (its state, in particular `GetUserCalls`, is unchanged) and
the metrics state is unchanged. -/
theorem c8_empty_id_rejected (s : UserService) (m : MetricsState) (db : MockDatabase)
    (now : Int) (h : ¬(s.rateLimiting = true ∧ now < s.lastRequest + 100)) :
    (UserService.GetUserHandler MockDatabase.GetUser s m db now "").1 = HandlerResult.badRequest
    ∧ (UserService.GetUserHandler MockDatabase.GetUser s m db now "").2.2.1 = m
    ∧ (UserService.GetUserHandler MockDatabase.GetUser s m db now "").2.2.2 = db
    ∧ (UserService.GetUserHandler MockDatabase.GetUser s m db now "").2.2.2.GetUserCalls
        = db.GetUserCalls := by
  simp only [UserService.GetUserHandler]
  rw [if_neg h]
  simp

/-- Witness for C8 at a concrete input: rate limiting disabled, empty id. -/
theorem c8_empty_id_rejected_witness :
    (UserService.GetUserHandler MockDatabase.GetUser
        { rateLimiting := false, lastRequest := 0, hasMetrics := true }
        (NewMetrics { Server := { Host := "localhost", Port := "8080" },
                      Database := { MaxConnections := 10, Timeout := 30, CacheSize := 100 },
                      App := { Environment := "test", LogLevel := "debug",
                               Features := [("cache_enabled", false),
                                            ("rate_limiting", false),
                                            ("metrics_enabled", true)] } })
        NewMockDatabase 1000 "").2.2.2.GetUserCalls
      = NewMockDatabase.GetUserCalls :=
  (c8_empty_id_rejected
      { rateLimiting := false, lastRequest := 0, hasMetrics := true }
      (NewMetrics { Server := { Host := "localhost", Port := "8080" },
                    Database := { MaxConnections := 10, Timeout := 30, CacheSize := 100 },
                    App := { Environment := "test", LogLevel := "debug",
                             Features := [("cache_enabled", false),
                                          ("rate_limiting", false),
                                          ("metrics_enabled", true)] } })
      NewMockDatabase 1000 (by simp)).2.2.2

/-- Claim C1 counterexample: with a corrupt data file at the well-known
path, `Initialize` does NOT return an error — it returns nil, seeds the
default record set, and overwrites the file with it, contradicting the
claim that it fails fatally with no fallback seeding. -/
theorem c1_counterexample :
    ((NewPersistentDatabase
        { Server := { Host := "localhost", Port := "8080" },
          Database := { MaxConnections := 10, Timeout := 30, CacheSize := 100 },
          App := { Environment := "test", LogLevel := "debug",
                   Features := [("cache_enabled", false),
                                ("rate_limiting", false),
                                ("metrics_enabled", false)] } }
        false).Initialize FileContent.corrupt).1 = Except.ok ()
    ∧ ((NewPersistentDatabase
        { Server := { Host := "localhost", Port := "8080" },
          Database := { MaxConnections := 10, Timeout := 30, CacheSize := 100 },
          App := { Environment := "test", LogLevel := "debug",
                   Features := [("cache_enabled", false),
                                ("rate_limiting", false),
                                ("metrics_enabled", false)] } }
        false).Initialize FileContent.corrupt).2.1.users = initialDataset
    ∧ ((NewPersistentDatabase
        { Server := { Host := "localhost", Port := "8080" },
          Database := { MaxConnections := 10, Timeout := 30, CacheSize := 100 },
          App := { Environment := "test", LogLevel := "debug",
                   Features := [("cache_enabled", false),
                                ("rate_limiting", false),
                                ("metrics_enabled", false)] } }
        false).Initialize FileContent.corrupt).2.2 = FileContent.json initialDataset :=
  ⟨rfl, rfl, rfl⟩

/-- Claim C1 amended: on a corrupt (non-unmarshalable) data file,
`Initialize` treats the load failure exactly like an absent file: it
returns success, seeds the default record set, and immediately overwrites
the file with that seed; there is no fatal load error. -/
theorem c1_corrupt_file_reseeds (cfg : Config) (hm : Bool) :
    (NewPersistentDatabase cfg hm).Initialize FileContent.corrupt
      = (Except.ok (),
         { NewPersistentDatabase cfg hm with users := initialDataset },
         FileContent.json initialDataset) := rfl

/-- Claim C2 counterexample: in-memory backend, cache and metrics enabled;
after `GetUser "1"` put the key in the cache with the query counter at 1,
the second `GetUser "1"` is a cache hit yet the query counter still rises
to 2 — the claim says it stays unchanged. -/
theorem c2_counterexample :
    let cfg : Config :=
      { Server := { Host := "localhost", Port := "8080" },
        Database := { MaxConnections := 10, Timeout := 30, CacheSize := 100 },
        App := { Environment := "test", LogLevel := "debug",
                 Features := [("cache_enabled", true),
                              ("rate_limiting", false),
                              ("metrics_enabled", true)] } }
    let r1 := (NewInMemoryDatabase cfg true).GetUser (NewMetrics cfg) "1"
    let r2 := r1.2.1.GetUser r1.2.2 "1"
    r1.2.1.cache.lookup "1" = some "Alice"
    ∧ r1.2.2.dbQueries = 1
    ∧ r2.1 = Except.ok "Alice"
    ∧ r2.2.2.cacheHits = 1
    ∧ r2.2.2.dbQueries = 2
    ∧ r2.2.2.dbQueries ≠ r1.2.2.dbQueries :=
  ⟨rfl, rfl, rfl, rfl, rfl, by decide⟩

/-- Claim C2 amended: for either backend with caching and metrics enabled,
once a key is in the cache a subsequent `GetUser` for that key returns the
cached value and leaves the backend state unchanged, but it still
increments the database-query counter by one (the counter counts every
`GetUser` call, not only backing-store fetches); the hit additionally
increments only the cache-hit counter. -/
theorem c2_cached_hit_still_counts_query
    (d : InMemoryDatabase) (m : MetricsState) (id v : String)
    (dp : PersistentDatabase) (mp : MetricsState) (idp vp : String)
    (hc : d.cacheEnabled = true) (hm : d.hasMetrics = true) (he : m.enabled = true)
    (hhit : d.cache.lookup id = some v)
    (hcp : dp.cacheEnabled = true) (hmp : dp.hasMetrics = true) (hep : mp.enabled = true)
    (hhitp : dp.cache.lookup idp = some vp) :
    d.GetUser m id
      = (Except.ok v, d,
         { m with dbQueries := m.dbQueries + 1, cacheHits := m.cacheHits + 1 })
    ∧ dp.GetUser mp idp
      = (Except.ok vp, dp,
         { mp with dbQueries := mp.dbQueries + 1, cacheHits := mp.cacheHits + 1 }) := by
  constructor
  · simp [InMemoryDatabase.GetUser, MetricsState.RecordDBQuery, MetricsState.RecordCacheHit,
      hc, hm, he, hhit]
  · simp [PersistentDatabase.GetUser, MetricsState.RecordDBQuery, MetricsState.RecordCacheHit,
      hcp, hmp, hep, hhitp]

/-- Witness for the amended C2 at a concrete input: both backends with the
key `1` already cached, query counter at 5 before the call and 6 after. -/
theorem c2_cached_hit_still_counts_query_witness :
    ({ config := { MaxConnections := 10, Timeout := 30, CacheSize := 100 },
       hasMetrics := true,
       users := [("1", "Alice"), ("2", "Bob"), ("3", "Charlie")],
       cache := [("1", "Alice")], cacheEnabled := true } : InMemoryDatabase).GetUser
      { enabled := true, httpRequests := [], dbQueries := 5, userLookups := 0,
        cacheHits := 2, cacheMisses := 3, requestDuration := [] } "1"
      = (Except.ok "Alice",
         { config := { MaxConnections := 10, Timeout := 30, CacheSize := 100 },
           hasMetrics := true,
           users := [("1", "Alice"), ("2", "Bob"), ("3", "Charlie")],
           cache := [("1", "Alice")], cacheEnabled := true },
         { enabled := true, httpRequests := [], dbQueries := 6, userLookups := 0,
           cacheHits := 3, cacheMisses := 3, requestDuration := [] }) :=
  (c2_cached_hit_still_counts_query
      { config := { MaxConnections := 10, Timeout := 30, CacheSize := 100 },
        hasMetrics := true,
        users := [("1", "Alice"), ("2", "Bob"), ("3", "Charlie")],
        cache := [("1", "Alice")], cacheEnabled := true }
      { enabled := true, httpRequests := [], dbQueries := 5, userLookups := 0,
        cacheHits := 2, cacheMisses := 3, requestDuration := [] } "1" "Alice"
      { config := { MaxConnections := 10, Timeout := 30, CacheSize := 100 },
        hasMetrics := true, users := [("1", "Alice")],
        cache := [("1", "Alice")], cacheEnabled := true }
      { enabled := true, httpRequests := [], dbQueries := 5, userLookups := 0,
        cacheHits := 2, cacheMisses := 3, requestDuration := [] } "1" "Alice"
      rfl rfl rfl (by decide) rfl rfl rfl (by decide)).1

/-- Claim C5: the records held by the persistent backend when `Close`
succeeds (it serializes the full map to the file) are exactly the records a
fresh `Initialize` loads back from that file. -/
theorem c5_close_initialize_roundtrip (d : PersistentDatabase) (fs : FileContent)
    (cfg : Config) (hm : Bool) :
    (d.Close fs).1 = Except.ok ()
    ∧ ((NewPersistentDatabase cfg hm).Initialize (d.Close fs).2.2).1 = Except.ok ()
    ∧ ((NewPersistentDatabase cfg hm).Initialize (d.Close fs).2.2).2.1.users = d.users :=
  ⟨rfl, rfl, rfl⟩

/-- Claim C3: for either backend with the cache in its fresh (empty) state,
`GetUser` returns the seeded name for a seeded id and the not-found error
for any other id; concretely, the in-memory backend seeded with
`1 ↦ Alice, 2 ↦ Bob, 3 ↦ Charlie` and cache disabled answers
`GetUser "2" = Bob` and `GetUser "9" = user not found` after a successful
`Initialize`. -/
theorem c3_seeded_get_user :
    (∀ (d : InMemoryDatabase) (m : MetricsState) (id name : String),
        d.cache = [] → d.users.lookup id = some name →
        (d.GetUser m id).1 = Except.ok name)
    ∧ (∀ (d : InMemoryDatabase) (m : MetricsState) (id : String),
        d.cache = [] → d.users.lookup id = none →
        (d.GetUser m id).1 = Except.error "user not found")
    ∧ (∀ (d : PersistentDatabase) (m : MetricsState) (id name : String),
        d.cache = [] → d.users.lookup id = some name →
        (d.GetUser m id).1 = Except.ok name)
    ∧ (∀ (d : PersistentDatabase) (m : MetricsState) (id : String),
        d.cache = [] → d.users.lookup id = none →
        (d.GetUser m id).1 = Except.error "user not found")
    ∧ ((NewInMemoryDatabase
          { Server := { Host := "localhost", Port := "8080" },
            Database := { MaxConnections := 10, Timeout := 30, CacheSize := 100 },
            App := { Environment := "test", LogLevel := "debug",
                     Features := [("cache_enabled", false),
                                  ("rate_limiting", false),
                                  ("metrics_enabled", false)] } } false).Initialize.1
          = Except.ok ()
        ∧ ((NewInMemoryDatabase
              { Server := { Host := "localhost", Port := "8080" },
                Database := { MaxConnections := 10, Timeout := 30, CacheSize := 100 },
                App := { Environment := "test", LogLevel := "debug",
                         Features := [("cache_enabled", false),
                                      ("rate_limiting", false),
                                      ("metrics_enabled", false)] } } false).Initialize.2.GetUser
            { enabled := false, httpRequests := [], dbQueries := 0, userLookups := 0,
              cacheHits := 0, cacheMisses := 0, requestDuration := [] } "2").1
          = Except.ok "Bob"
        ∧ ((NewInMemoryDatabase
              { Server := { Host := "localhost", Port := "8080" },
                Database := { MaxConnections := 10, Timeout := 30, CacheSize := 100 },
                App := { Environment := "test", LogLevel := "debug",
                         Features := [("cache_enabled", false),
                                      ("rate_limiting", false),
                                      ("metrics_enabled", false)] } } false).Initialize.2.GetUser
            { enabled := false, httpRequests := [], dbQueries := 0, userLookups := 0,
              cacheHits := 0, cacheMisses := 0, requestDuration := [] } "9").1
          = Except.error "user not found") := by
  refine ⟨?_, ?_, ?_, ?_, rfl, rfl, rfl⟩
  · intro d m id name hc hl
    rcases InMemoryDatabase.getUser_empty_cache d m id hc with ⟨n, hn, hres⟩ | ⟨hn, _⟩
    · rw [hl] at hn
      cases hn
      exact hres
    · rw [hl] at hn
      cases hn
  · intro d m id hc hl
    rcases InMemoryDatabase.getUser_empty_cache d m id hc with ⟨n, hn, _⟩ | ⟨_, hres⟩
    · rw [hl] at hn
      cases hn
    · exact hres
  · intro d m id name hc hl
    rcases PersistentDatabase.getUser_empty_cache_pers d m id hc with ⟨n, hn, hres⟩ | ⟨hn, _⟩
    · rw [hl] at hn
      cases hn
      exact hres
    · rw [hl] at hn
      cases hn
  · intro d m id hc hl
    rcases PersistentDatabase.getUser_empty_cache_pers d m id hc with ⟨n, hn, _⟩ | ⟨_, hres⟩
    · rw [hl] at hn
      cases hn
    · exact hres

/-- Witness for C3 at a concrete input: the seeded in-memory backend with
an empty cache answers `GetUser "2"` with `Bob`. -/
theorem c3_seeded_get_user_witness :
    (({ config := { MaxConnections := 10, Timeout := 30, CacheSize := 100 },
        hasMetrics := false,
        users := [("1", "Alice"), ("2", "Bob"), ("3", "Charlie")],
        cache := [], cacheEnabled := false } : InMemoryDatabase).GetUser
      { enabled := false, httpRequests := [], dbQueries := 0, userLookups := 0,
        cacheHits := 0, cacheMisses := 0, requestDuration := [] } "2").1
      = Except.ok "Bob" :=
  c3_seeded_get_user.1
    { config := { MaxConnections := 10, Timeout := 30, CacheSize := 100 },
      hasMetrics := false,
      users := [("1", "Alice"), ("2", "Bob"), ("3", "Charlie")],
      cache := [], cacheEnabled := false }
    { enabled := false, httpRequests := [], dbQueries := 0, userLookups := 0,
      cacheHits := 0, cacheMisses := 0, requestDuration := [] }
    "2" "Bob" rfl (by decide)

/-- Claim C4: for either backend, if the cache occupancy is within the
configured `cache_size` before a `GetUser` call it still is afterwards; and
the cache only ever grows on a call whose starting occupancy was strictly
below `cache_size`. -/
theorem c4_cache_never_exceeds_capacity
    (d : InMemoryDatabase) (m : MetricsState) (id : String)
    (dp : PersistentDatabase) (mp : MetricsState) (idp : String)
    (h : (d.cache.length : Int) ≤ d.config.CacheSize)
    (hp : (dp.cache.length : Int) ≤ dp.config.CacheSize) :
    ((d.GetUser m id).2.1.cache.length : Int) ≤ d.config.CacheSize
    ∧ ((d.GetUser m id).2.1.cache.length ≠ d.cache.length →
        (d.cache.length : Int) < d.config.CacheSize)
    ∧ ((dp.GetUser mp idp).2.1.cache.length : Int) ≤ dp.config.CacheSize
    ∧ ((dp.GetUser mp idp).2.1.cache.length ≠ dp.cache.length →
        (dp.cache.length : Int) < dp.config.CacheSize) := by
  have h1 := InMemoryDatabase.getUser_cache d m id
  have h2 := PersistentDatabase.getUser_cache_pers dp mp idp
  refine ⟨?_, ?_, ?_, ?_⟩
  · rcases h1 with hsame | ⟨hlt, hle⟩
    · rw [hsame]; exact h
    · omega
  · intro hne
    rcases h1 with hsame | ⟨hlt, _⟩
    · exact absurd (by rw [hsame]) hne
    · exact hlt
  · rcases h2 with hsame | ⟨hlt, hle⟩
    · rw [hsame]; exact hp
    · omega
  · intro hne
    rcases h2 with hsame | ⟨hlt, _⟩
    · exact absurd (by rw [hsame]) hne
    · exact hlt

/-- Witness for C4 at a concrete input: a full cache of size 1 stays at one
entry across a `GetUser` for a different seeded key. -/
theorem c4_cache_never_exceeds_capacity_witness :
    ((({ config := { MaxConnections := 10, Timeout := 30, CacheSize := 1 },
         hasMetrics := false,
         users := [("1", "Alice"), ("2", "Bob"), ("3", "Charlie")],
         cache := [("1", "Alice")], cacheEnabled := true } : InMemoryDatabase).GetUser
        { enabled := false, httpRequests := [], dbQueries := 0, userLookups := 0,
          cacheHits := 0, cacheMisses := 0, requestDuration := [] }
        "2").2.1.cache.length : Int) ≤ 1 :=
  (c4_cache_never_exceeds_capacity
      { config := { MaxConnections := 10, Timeout := 30, CacheSize := 1 },
        hasMetrics := false,
        users := [("1", "Alice"), ("2", "Bob"), ("3", "Charlie")],
        cache := [("1", "Alice")], cacheEnabled := true }
      { enabled := false, httpRequests := [], dbQueries := 0, userLookups := 0,
        cacheHits := 0, cacheMisses := 0, requestDuration := [] }
      "2"
      { config := { MaxConnections := 10, Timeout := 30, CacheSize := 1 },
        hasMetrics := false,
        users := [("1", "Alice"), ("2", "Bob"), ("3", "Charlie")],
        cache := [("1", "Alice")], cacheEnabled := true }
      { enabled := false, httpRequests := [], dbQueries := 0, userLookups := 0,
        cacheHits := 0, cacheMisses := 0, requestDuration := [] }
      "2" (by decide) (by decide)).1

/-- Claim C7: a metrics collector constructed with the enabled flag off
treats every recording call as a no-op (the whole state, counters and
duration lists included, is returned unchanged) and `GetStats` returns the
fixed disabled string whatever the counters hold. -/
theorem c7_metrics_disabled_noop (m : MetricsState) (endpoint : String) (duration : Int)
    (h : m.enabled = false) :
    m.RecordHTTPRequest endpoint duration = m
    ∧ m.RecordDBQuery = m
    ∧ m.RecordUserLookup = m
    ∧ m.RecordCacheHit = m
    ∧ m.RecordCacheMiss = m
    ∧ m.GetStats = "Metrics disabled" := by
  simp [MetricsState.RecordHTTPRequest, MetricsState.RecordDBQuery,
        MetricsState.RecordUserLookup, MetricsState.RecordCacheHit,
        MetricsState.RecordCacheMiss, MetricsState.GetStats, h]

/-- Witness for C7 at a concrete input: a disabled collector with nonzero
counters still snapshots as disabled. -/
theorem c7_metrics_disabled_noop_witness :
    ({ enabled := false, httpRequests := [("/user", 7)], dbQueries := 5, userLookups := 4,
       cacheHits := 3, cacheMisses := 2,
       requestDuration := [("/user", [10, 20])] } : MetricsState).GetStats
      = "Metrics disabled" :=
  (c7_metrics_disabled_noop
      { enabled := false, httpRequests := [("/user", 7)], dbQueries := 5, userLookups := 4,
        cacheHits := 3, cacheMisses := 2, requestDuration := [("/user", [10, 20])] }
      "/user" 30 rfl).2.2.2.2.2

/-- Claim C9: for either backend, `GetUser` either returns a name or fails
with exactly the `user not found` error; no other error kind is
reachable. -/
theorem c9_get_user_single_error_kind :
    (∀ (d : InMemoryDatabase) (m : MetricsState) (id : String),
        (∃ n, (d.GetUser m id).1 = Except.ok n)
        ∨ (d.GetUser m id).1 = Except.error "user not found")
    ∧ (∀ (d : PersistentDatabase) (m : MetricsState) (id : String),
        (∃ n, (d.GetUser m id).1 = Except.ok n)
        ∨ (d.GetUser m id).1 = Except.error "user not found") :=
  ⟨InMemoryDatabase.getUser_shape, PersistentDatabase.getUser_shape_pers⟩

/-- Claim C10: for either backend, `GetUser` never modifies the backing
`users` map, whichever path the call takes (cache hit, store fetch, or
not-found). -/
theorem c10_get_user_preserves_store :
    (∀ (d : InMemoryDatabase) (m : MetricsState) (id : String),
        (d.GetUser m id).2.1.users = d.users)
    ∧ (∀ (d : PersistentDatabase) (m : MetricsState) (id : String),
        (d.GetUser m id).2.1.users = d.users) :=
  ⟨fun d m id => (InMemoryDatabase.getUser_frame d m id).1,
   fun d m id => (PersistentDatabase.getUser_frame_pers d m id).1⟩

end Demofx
